import Mathlib

/-!
Verification development for the FantasyRegressor repository.

The core component is the class FantasyPredictor in src/model.py, with two
operations: train_model (load a CSV, clean it, fit label encoders, compute
recency weights, fit a random-forest regressor) and predict_player (normalize
the queried name, encode both labels with the encoders frozen at training
time, run the regressor on a single feature row).

Shallow-embedding conventions used throughout this file:
* Numeric cell values are modelled as rationals.  A cell of the Age / Year /
  target column is modelled as an `Option` rational: `some q` when
  pandas.to_numeric would produce the number q, `none` when the cell is
  missing or non-numeric (pandas NaN after coercion).
* The CSV file handed to train_model is modelled as its header list (headers
  may carry surrounding whitespace, stripped by `df.columns.str.strip()`)
  together with the list of parsed rows.  A missing file is the `none` case
  of `Option CSVFile`.
* The sklearn RandomForestRegressor is an external library component with a
  fixed seed; its fit procedure is modelled as an abstract parameter `rf` of
  type `RFFit` mapping the feature matrix, target vector and sample weights
  to the fitted prediction function.  Every theorem below is proved for all
  such functions, so in particular for the real forest.  An unfitted
  regressor object (predicting with it raises NotFittedError, a subclass of
  ValueError) is the constructor `RFModel.unfitted`.
* Python mutates the predictor object in place and exceptions propagate out
  of train_model while the mutations performed so far persist; train_model
  is therefore embedded as a function returning the final object state
  together with an optional error.  `TrainError` has one constructor per
  raise site: the FileNotFoundError of the existence check, the ValueError
  for a missing target column, and the ValueError raised by sklearn's fit
  when the cleaned frame has zero rows.
* predict_player returns None on every failure; the `Except` result of the
  embedding records which of the code's distinct failure paths fired (the
  untrained check, the player-encoder transform, the position-encoder
  transform, or an unfitted model object), and `predict_playerPy` collapses
  it to the `Option` value the Python function actually returns.
* Python's str.strip removes Unicode whitespace; it is modelled with
  `Char.isWhitespace`, which agrees on the ASCII whitespace appearing in the
  data handled by this program.
-/

namespace FantasyRegressor

/-! ### Name cleaning

Line 37 / line 82 of src/model.py:
`x.split('*')[0].split('+')[0].strip()` — the prefix of the string before
the first `'*'`, then the prefix before the first `'+'`, then stripped of
surrounding whitespace. -/

def notStar (c : Char) : Bool := c != '*'

def notPlus (c : Char) : Bool := c != '+'

def stripMarkers (cs : List Char) : List Char :=
  (cs.takeWhile notStar).takeWhile notPlus

def trimChars (cs : List Char) : List Char :=
  ((cs.dropWhile Char.isWhitespace).reverse.dropWhile Char.isWhitespace).reverse

def normalizeName (s : String) : String :=
  String.mk (trimChars (stripMarkers s.data))

/-- `df.columns.str.strip()` applied to one header. -/
def trimStr (s : String) : String :=
  String.mk (trimChars s.data)

/-! ### Data model -/

/-- One parsed CSV row, restricted to the columns train_model reads.
`player` is the cell of the Player column after `astype(str)`, `fantPos`
the cell of the FantPos column after `astype(str)`; `age`, `year` and
`target` are the numeric views of the Age, Year and target-column cells
(`none` = missing or non-numeric). -/
structure RawRow where
  player : String
  fantPos : String
  age : Option ℚ
  year : Option ℚ
  target : Option ℚ
  deriving DecidableEq

/-- The parsed training file: stripped-or-not headers plus rows. -/
structure CSVFile where
  headers : List String
  rows : List RawRow
  deriving DecidableEq

/-- A row surviving the cleaning steps of train_model (lines 37-46):
name normalized, position stringified, age imputed, Year and target present
and numeric. -/
structure CleanRow where
  player : String
  pos : String
  age : ℚ
  year : ℚ
  target : ℚ
  deriving DecidableEq

/-- The exceptions train_model can raise, one constructor per raise site
(FileNotFoundError line 20, ValueError line 33, sklearn's ValueError for a
zero-row fit at line 68).  The spec's DataError taxonomy covers all three. -/
inductive TrainError where
  | fileNotFound
  | missingTargetColumn
  | noUsableRows
  deriving DecidableEq

/-- The distinct failure paths of predict_player: the untrained check at
line 78, an unseen player label at line 86, an unseen position label at
line 87, and the NotFittedError of predicting with an unfitted model
object.  The Python function maps every one of them to None. -/
inductive PredictError where
  | notTrained
  | unknownEntity
  | unknownCategory
  | notFitted
  deriving DecidableEq

/-- The object stored in self.model: either a freshly constructed, not yet
fitted RandomForestRegressor, or a fitted one, modelled by its prediction
function on a single feature row. -/
inductive RFModel where
  | unfitted
  | fitted (f : List ℚ → ℚ)

/-- The fit procedure of RandomForestRegressor(n_estimators=100,
random_state=42): feature matrix, target vector and sample weights to the
fitted single-row prediction function.  The seed is fixed, so this is a
function; it is kept abstract and every theorem quantifies over it. -/
def RFFit : Type :=
  List (List ℚ) → List ℚ → List ℚ → (List ℚ → ℚ)

/-- The mutable state of a FantasyPredictor instance (src/model.py lines
8-13).  The constant self.features list of column names is not part of the
state proper and is inlined where used. -/
structure FantasyPredictor where
  model : Option RFModel
  player_encoder : List String
  pos_encoder : List String
  is_trained : Bool

/-- __init__: no model, unfitted encoders (modelled by empty class lists),
untrained. -/
def FantasyPredictor.init : FantasyPredictor :=
  FantasyPredictor.mk none [] [] false

/-! ### train_model -/

def colFantPT : String := "FantPT"

def colFantPt : String := "FantPt"

/-- Lines 24-33: strip the headers, then look for the target column under
its two accepted spellings. -/
def findTargetCol (headers : List String) : Option String :=
  let hs := headers.map trimStr
  if colFantPT ∈ hs then some colFantPT
  else if colFantPt ∈ hs then some colFantPt
  else none

/-- Lines 37-46 applied to one row.  The name is normalized and the age
imputed on every row; the row survives iff its target cell and its Year
cell are present and numeric.  (Python performs the normalization and
imputation on the whole frame before dropping rows, which yields the same
surviving rows.) -/
def cleanRow (r : RawRow) : Option CleanRow :=
  match r.target, r.year with
  | some t, some y =>
      some (CleanRow.mk (normalizeName r.player) r.fantPos (r.age.getD 25) y t)
  | _, _ => none

def cleanRows (rows : List RawRow) : List CleanRow :=
  rows.filterMap cleanRow

/-- Code-point comparison of two strings, the order numpy sorts label
classes by. -/
def charListLe : List Char → List Char → Bool
  | [], _ => true
  | _ :: _, [] => false
  | a :: as, b :: bs =>
    if a.val < b.val then true
    else if b.val < a.val then false
    else charListLe as bs

def insertSorted (x : String) : List String → List String
  | [] => [x]
  | y :: ys => if charListLe x.data y.data then x :: y :: ys else y :: insertSorted x ys

def sortLabels : List String → List String
  | [] => []
  | x :: xs => insertSorted x (sortLabels xs)

/-- LabelEncoder.fit: classes_ is the sorted list of distinct labels. -/
def fitClasses (labels : List String) : List String :=
  sortLabels labels.dedup

/-- LabelEncoder.transform on one label: its index among the frozen
classes, or an error (ValueError in Python) for an unseen label. -/
def lookupLabel (classes : List String) (x : String) : Option ℕ :=
  if x ∈ classes then some (classes.indexOf x) else none

/-! ### Recency weights (lines 56-60) -/

def qmean (l : List ℚ) : ℚ := l.sum / l.length

/-- `1 / (Year_Gap.clip(lower=0.5) ** 2)` with
`Year_Gap = 2025 - Year` (current_season is the constant 2025). -/
def rawWeight (year : ℚ) : ℚ := 1 / (max (2025 - year) (1 / 2)) ^ 2

/-- The per-row weights: raw decay weights divided by their mean. -/
def sampleWeights (years : List ℚ) : List ℚ :=
  (years.map rawWeight).map (fun w => w / qmean (years.map rawWeight))

/-- Lines 52-53 and 63: the feature matrix in the fixed column order
[Player_ID, Age, Pos_ID], with the ids produced by the freshly fitted
encoders. -/
def featureMatrix (rows : List CleanRow) : List (List ℚ) :=
  rows.map (fun r =>
    [(((fitClasses (rows.map CleanRow.player)).indexOf r.player : ℕ) : ℚ), r.age,
     (((fitClasses (rows.map CleanRow.pos)).indexOf r.pos : ℕ) : ℚ)])

/-- train_model (lines 15-71) as a state transformer: the final object
state paired with the raised exception, if any.  The order of effects
mirrors the source: the existence check and the target-column check happen
before anything is mutated; both encoders are refit (line 52-53) and
self.model replaced by a fresh unfitted regressor (line 67) before the fit
call that fails on an empty cleaned frame; self.is_trained is set only
after a successful fit (line 70). -/
def train_model (rf : RFFit) (p : FantasyPredictor) (input : Option CSVFile) :
    FantasyPredictor × Option TrainError :=
  match input with
  | none => (p, some TrainError.fileNotFound)
  | some csv =>
    match findTargetCol csv.headers with
    | none => (p, some TrainError.missingTargetColumn)
    | some _tc =>
      if cleanRows csv.rows = [] then
        (FantasyPredictor.mk (some RFModel.unfitted)
          (fitClasses ((cleanRows csv.rows).map CleanRow.player))
          (fitClasses ((cleanRows csv.rows).map CleanRow.pos))
          p.is_trained,
         some TrainError.noUsableRows)
      else
        (FantasyPredictor.mk
          (some (RFModel.fitted (rf (featureMatrix (cleanRows csv.rows))
            ((cleanRows csv.rows).map CleanRow.target)
            (sampleWeights ((cleanRows csv.rows).map CleanRow.year)))))
          (fitClasses ((cleanRows csv.rows).map CleanRow.player))
          (fitClasses ((cleanRows csv.rows).map CleanRow.pos))
          true,
         none)

/-! ### predict_player (lines 73-100) -/

def predict_player (p : FantasyPredictor) (player_name : String) (age : ℚ)
    (position : String) : Except PredictError ℚ :=
  if p.is_trained then
    match lookupLabel p.player_encoder (normalizeName player_name) with
    | none => Except.error PredictError.unknownEntity
    | some pid =>
      match lookupLabel p.pos_encoder position with
      | none => Except.error PredictError.unknownCategory
      | some cid =>
        match p.model with
        | some (RFModel.fitted f) => Except.ok (f [(pid : ℚ), age, (cid : ℚ)])
        | _ => Except.error PredictError.notFitted
  else Except.error PredictError.notTrained

/-- The value the Python function actually returns: float(prediction) on
success, None on every failure path. -/
def predict_playerPy (p : FantasyPredictor) (player_name : String) (age : ℚ)
    (position : String) : Option ℚ :=
  (predict_player p player_name age position).toOption

/-- The inputs on which train_model succeeds (success depends only on the
input, not on the prior state). -/
def goodInput (input : Option CSVFile) : Prop :=
  ∃ csv, input = some csv ∧
    (findTargetCol csv.headers).isSome ∧ cleanRows csv.rows ≠ []

/-- Run a fresh instance through a sequence of train_model calls. -/
def trainAll (rf : RFFit) (inputs : List (Option CSVFile)) : FantasyPredictor :=
  inputs.foldl (fun p i => (train_model rf p i).1) FantasyPredictor.init

/-! ### Helper lemmas: name cleaning -/

theorem dropWhile_self {α : Type} (p : α → Bool) (l : List α) :
    (l.dropWhile p).dropWhile p = l.dropWhile p := by
  induction l with
  | nil => rfl
  | cons a t ih =>
    by_cases h : p a
    · simp [List.dropWhile_cons, h, ih]
    · simp [List.dropWhile_cons, h]

theorem head_not_of_dropWhile_eq_self {α : Type} (p : α → Bool) {a : α}
    {t : List α} (h : (a :: t).dropWhile p = a :: t) : p a = false := by
  by_cases hp : p a
  · rw [List.dropWhile_cons_of_pos hp] at h
    have hsuf : t.dropWhile p <:+ t := List.dropWhile_suffix p
    rw [h] at hsuf
    have := hsuf.length_le
    simp at this
  · simpa using hp

theorem dropWhile_eq_self_of_prefix {α : Type} (p : α → Bool) {l m : List α}
    (hm : m <+: l) (hl : l.dropWhile p = l) : m.dropWhile p = m := by
  cases m with
  | nil => rfl
  | cons a t =>
    obtain ⟨r, hr⟩ := hm
    subst hr
    have hl' : (a :: (t ++ r)).dropWhile p = a :: (t ++ r) := by simpa using hl
    have ha : p a = false := head_not_of_dropWhile_eq_self p hl'
    simp [List.dropWhile_cons, ha]

theorem trimChars_subset (l : List Char) : trimChars l ⊆ l := by
  intro c hc
  unfold trimChars at hc
  rw [List.mem_reverse] at hc
  have h1 := (List.dropWhile_suffix Char.isWhitespace).subset hc
  rw [List.mem_reverse] at h1
  exact (List.dropWhile_suffix Char.isWhitespace).subset h1

theorem trimChars_prefix_dropWhile (l : List Char) :
    trimChars l <+: l.dropWhile Char.isWhitespace := by
  unfold trimChars
  have h : ((l.dropWhile Char.isWhitespace).reverse.dropWhile Char.isWhitespace)
      <:+ (l.dropWhile Char.isWhitespace).reverse :=
    List.dropWhile_suffix Char.isWhitespace
  have h2 := List.reverse_prefix.mpr h
  rwa [List.reverse_reverse] at h2

theorem trimChars_idem (l : List Char) : trimChars (trimChars l) = trimChars l := by
  have hfix : (trimChars l).dropWhile Char.isWhitespace = trimChars l :=
    dropWhile_eq_self_of_prefix Char.isWhitespace (trimChars_prefix_dropWhile l)
      (dropWhile_self Char.isWhitespace l)
  show ((((trimChars l).dropWhile Char.isWhitespace).reverse.dropWhile
      Char.isWhitespace).reverse) = trimChars l
  rw [hfix]
  unfold trimChars
  rw [List.reverse_reverse,
      dropWhile_self Char.isWhitespace ((l.dropWhile Char.isWhitespace).reverse)]

theorem mem_stripMarkers {c : Char} {l : List Char} (h : c ∈ stripMarkers l) :
    notStar c = true ∧ notPlus c = true := by
  unfold stripMarkers at h
  refine ⟨?_, List.mem_takeWhile_imp h⟩
  have h1 := (List.takeWhile_sublist notPlus).subset h
  exact List.mem_takeWhile_imp h1

theorem stripMarkers_eq_self {l : List Char}
    (h : ∀ c ∈ l, notStar c = true ∧ notPlus c = true) : stripMarkers l = l := by
  unfold stripMarkers
  rw [List.takeWhile_eq_self_iff.mpr (fun c hc => (h c hc).1)]
  exact List.takeWhile_eq_self_iff.mpr (fun c hc => (h c hc).2)

theorem stripMarkers_trimChars (l : List Char) :
    stripMarkers (trimChars (stripMarkers l)) = trimChars (stripMarkers l) :=
  stripMarkers_eq_self (fun _ hc => mem_stripMarkers (trimChars_subset _ hc))

theorem normalizeName_idem (s : String) :
    normalizeName (normalizeName s) = normalizeName s := by
  show String.mk (trimChars (stripMarkers (trimChars (stripMarkers s.data)))) = _
  rw [stripMarkers_trimChars, trimChars_idem]
  rfl

theorem takeWhile_and {α : Type} (p q : α → Bool) (l : List α) :
    (l.takeWhile p).takeWhile q = l.takeWhile (fun a => p a && q a) := by
  induction l with
  | nil => rfl
  | cons a t ih =>
    cases hp : p a <;> cases hq : q a <;>
      simp [List.takeWhile_cons, hp, hq, ih]

theorem stripMarkers_eq_takeWhile (l : List Char) :
    stripMarkers l = l.takeWhile (fun c => notStar c && notPlus c) :=
  takeWhile_and notStar notPlus l

/-! ### Helper lemmas: recency weights -/

theorem sum_map_div (l : List ℚ) (m : ℚ) :
    (l.map (fun w => w / m)).sum = l.sum / m := by
  induction l with
  | nil => simp
  | cons a t ih => simp [ih, add_div]

theorem rawWeight_pos (y : ℚ) : 0 < rawWeight y := by
  have h1 : (0 : ℚ) < max (2025 - y) (1 / 2) :=
    lt_of_lt_of_le (by norm_num) (le_max_right _ _)
  exact div_pos one_pos (pow_pos h1 2)

theorem rawWeight_mono {b a : ℚ} (h : b ≤ a) : rawWeight b ≤ rawWeight a := by
  have h0 : (0 : ℚ) < max (2025 - a) (1 / 2) :=
    lt_of_lt_of_le (by norm_num) (le_max_right _ _)
  have hle : max (2025 - a) (1 / 2) ≤ max (2025 - b) (1 / 2) :=
    max_le_max (by linarith) le_rfl
  have hpow : (max (2025 - a) (1 / 2)) ^ 2 ≤ (max (2025 - b) (1 / 2)) ^ 2 :=
    pow_le_pow_left₀ (le_of_lt h0) hle 2
  exact one_div_le_one_div_of_le (pow_pos h0 2) hpow

theorem sum_rawWeights_pos (years : List ℚ) (h : years ≠ []) :
    0 < (years.map rawWeight).sum := by
  apply List.sum_pos
  · intro x hx
    obtain ⟨y, _, rfl⟩ := List.mem_map.mp hx
    exact rawWeight_pos y
  · simpa [List.map_eq_nil_iff] using h

theorem qmean_rawWeights_pos (years : List ℚ) (h : years ≠ []) :
    0 < qmean (years.map rawWeight) := by
  apply div_pos (sum_rawWeights_pos years h)
  have hlen : 0 < years.length := List.length_pos.mpr h
  simp only [List.length_map]
  exact_mod_cast hlen

theorem sampleWeights_length (years : List ℚ) :
    (sampleWeights years).length = years.length := by
  simp [sampleWeights]

theorem qmean_sampleWeights (years : List ℚ) (h : years ≠ []) :
    qmean (sampleWeights years) = 1 := by
  have hS : (years.map rawWeight).sum ≠ 0 := ne_of_gt (sum_rawWeights_pos years h)
  have hn : ((years.length : ℚ)) ≠ 0 := by
    have hlen : 0 < years.length := List.length_pos.mpr h
    exact_mod_cast ne_of_gt hlen
  have hm : qmean (years.map rawWeight) =
      (years.map rawWeight).sum / (years.length : ℚ) := by
    unfold qmean
    rw [List.length_map]
  unfold qmean sampleWeights
  rw [sum_map_div, List.length_map, List.length_map, hm]
  field_simp

theorem sampleWeights_get (years : List ℚ) (i : ℕ)
    (h : i < (sampleWeights years).length) (h' : i < years.length) :
    (sampleWeights years).get ⟨i, h⟩ =
      rawWeight (years.get ⟨i, h'⟩) / qmean (years.map rawWeight) := by
  simp [sampleWeights, List.get_eq_getElem]

theorem sampleWeights_get_pos (years : List ℚ) (i : ℕ)
    (h : i < (sampleWeights years).length) (h' : i < years.length) :
    0 < (sampleWeights years).get ⟨i, h⟩ := by
  rw [sampleWeights_get years i h h']
  have hne : years ≠ [] := List.ne_nil_of_length_pos (Nat.lt_of_le_of_lt (Nat.zero_le i) h')
  exact div_pos (rawWeight_pos _) (qmean_rawWeights_pos years hne)

/-! ### Helper lemmas: encoders, train_model, predict_player -/

theorem mem_insertSorted {a x : String} {l : List String} :
    a ∈ insertSorted x l ↔ a = x ∨ a ∈ l := by
  induction l with
  | nil => simp [insertSorted]
  | cons y ys ih =>
    by_cases h : charListLe x.data y.data
    · simp [insertSorted, h]
    · simp [insertSorted, h, ih]
      tauto

theorem mem_sortLabels {a : String} {l : List String} :
    a ∈ sortLabels l ↔ a ∈ l := by
  induction l with
  | nil => simp [sortLabels]
  | cons x xs ih => simp [sortLabels, mem_insertSorted, ih]

theorem mem_fitClasses {a : String} {l : List String} :
    a ∈ fitClasses l ↔ a ∈ l := by
  simp [fitClasses, mem_sortLabels, List.mem_dedup]

theorem lookupLabel_none_iff (classes : List String) (x : String) :
    lookupLabel classes x = none ↔ x ∉ classes := by
  by_cases h : x ∈ classes <;> simp [lookupLabel, h]

theorem lookupLabel_of_mem {classes : List String} {x : String} (h : x ∈ classes) :
    lookupLabel classes x = some (classes.indexOf x) := by
  simp [lookupLabel, h]

theorem train_model_none (rf : RFFit) (p : FantasyPredictor) :
    train_model rf p none = (p, some TrainError.fileNotFound) := rfl

theorem train_model_noCol (rf : RFFit) (p : FantasyPredictor) (csv : CSVFile)
    (h : findTargetCol csv.headers = none) :
    train_model rf p (some csv) = (p, some TrainError.missingTargetColumn) := by
  simp [train_model, h]

theorem train_model_empty (rf : RFFit) (p : FantasyPredictor) (csv : CSVFile)
    (tc : String) (h : findTargetCol csv.headers = some tc)
    (he : cleanRows csv.rows = []) :
    train_model rf p (some csv) =
      (FantasyPredictor.mk (some RFModel.unfitted) [] [] p.is_trained,
       some TrainError.noUsableRows) := by
  simp [train_model, h, he, fitClasses, sortLabels]

theorem train_model_success (rf : RFFit) (p : FantasyPredictor) (csv : CSVFile)
    (tc : String) (h : findTargetCol csv.headers = some tc)
    (hne : cleanRows csv.rows ≠ []) :
    train_model rf p (some csv) =
      (FantasyPredictor.mk
        (some (RFModel.fitted (rf (featureMatrix (cleanRows csv.rows))
          ((cleanRows csv.rows).map CleanRow.target)
          (sampleWeights ((cleanRows csv.rows).map CleanRow.year)))))
        (fitClasses ((cleanRows csv.rows).map CleanRow.player))
        (fitClasses ((cleanRows csv.rows).map CleanRow.pos))
        true,
       none) := by
  simp [train_model, h, hne]

theorem train_fail_is_trained (rf : RFFit) (p : FantasyPredictor)
    (input : Option CSVFile) (h : (train_model rf p input).2 ≠ none) :
    (train_model rf p input).1.is_trained = p.is_trained := by
  cases input with
  | none => rfl
  | some csv =>
    cases hf : findTargetCol csv.headers with
    | none => rw [train_model_noCol rf p csv hf]
    | some tc =>
      by_cases he : cleanRows csv.rows = []
      · rw [train_model_empty rf p csv tc hf he]
      · rw [train_model_success rf p csv tc hf he] at h
        exact absurd rfl h

theorem train_succ_inv (rf : RFFit) (p : FantasyPredictor) (csv : CSVFile)
    (h : (train_model rf p (some csv)).2 = none) :
    (∃ tc, findTargetCol csv.headers = some tc) ∧ cleanRows csv.rows ≠ [] := by
  cases hf : findTargetCol csv.headers with
  | none =>
    rw [train_model_noCol rf p csv hf] at h
    simp at h
  | some tc =>
    by_cases he : cleanRows csv.rows = []
    · rw [train_model_empty rf p csv tc hf he] at h
      simp at h
    · exact ⟨⟨tc, rfl⟩, he⟩

theorem train_not_good_is_trained (rf : RFFit) (p : FantasyPredictor)
    (i : Option CSVFile) (h : ¬ goodInput i) :
    (train_model rf p i).1.is_trained = p.is_trained := by
  cases i with
  | none => rfl
  | some csv =>
    cases hf : findTargetCol csv.headers with
    | none => rw [train_model_noCol rf p csv hf]
    | some tc =>
      by_cases he : cleanRows csv.rows = []
      · rw [train_model_empty rf p csv tc hf he]
      · exact absurd ⟨csv, rfl, by simp [hf], he⟩ h

theorem foldl_train_is_trained (rf : RFFit) (inputs : List (Option CSVFile))
    (p : FantasyPredictor) (h : ∀ i ∈ inputs, ¬ goodInput i) :
    (inputs.foldl (fun q i => (train_model rf q i).1) p).is_trained = p.is_trained := by
  induction inputs generalizing p with
  | nil => rfl
  | cons i rest ih =>
    simp only [List.foldl_cons]
    rw [ih _ (fun j hj => h j (List.mem_cons_of_mem _ hj)),
        train_not_good_is_trained rf p i (h i (List.mem_cons_self _ _))]

theorem predict_untrained (p : FantasyPredictor) (name : String) (age : ℚ)
    (pos : String) (h : p.is_trained = false) :
    predict_player p name age pos = Except.error PredictError.notTrained := by
  simp [predict_player, h]

/-! ### Concrete data used by witnesses and counterexamples -/

/-- A stand-in regression fit, used only to instantiate the universally
quantified `RFFit` parameter in witnesses. -/
def rf0 : RFFit := fun _ _ _ => fun _ => 0

def nameA : String := "A"

def nameB : String := "B"

def nameC : String := "C"

def posWR : String := "WR"

def posRB : String := "RB"

def headerFoo : String := "Foo"

def jj : String := "Justin Jefferson"

def jjStar : String := "Justin Jefferson*"

def jjMid : String := "Justin* Jefferson"

def jjTrunc : String := "Justin"

def padA : String := "  A  "

def rowA2023 : RawRow := RawRow.mk nameA posWR (some 25) (some 2023) (some 10)

def rowA2024 : RawRow := RawRow.mk nameA posWR (some 26) (some 2024) (some 15)

def rowB2024 : RawRow := RawRow.mk nameB posRB (some 24) (some 2024) (some 8)

/-- A row whose Year cell is missing/non-numeric: dropped during cleaning. -/
def rowNoYear : RawRow := RawRow.mk nameA posWR (some 25) none (some 10)

/-- A row whose Age cell is missing/non-numeric. -/
def rowNoAge : RawRow := RawRow.mk nameA posWR none (some 2024) (some 10)

/-- The three-row training scenario of the spec. -/
def csv3 : CSVFile := CSVFile.mk [colFantPT] [rowA2023, rowA2024, rowB2024]

def goodCsv : CSVFile := CSVFile.mk [colFantPT] [rowA2023]

/-- Valid headers but every row dropped during cleaning. -/
def badCsv : CSVFile := CSVFile.mk [colFantPT] [rowNoYear]

/-- Target column missing under both spellings. -/
def noColCsv : CSVFile := CSVFile.mk [headerFoo] [rowA2023]

/-- Headers only, zero rows. -/
def emptyCsv : CSVFile := CSVFile.mk [colFantPT] []

def ageCsv : CSVFile := CSVFile.mk [colFantPT] [rowNoAge]

/-! ### Claims -/

/-- C1: on a model produced by a successful train_model call, a
predict_player call whose normalized entity name is not among the cleaned
training names fails with the unknown-entity error, one whose (normalized
name is known but whose) category label is not among the cleaned training
positions fails with the unknown-category error, and predict_player only
ever returns a numeric value when both labels were present in the training
data — never a fabricated or default value for an unseen label.  (In the
Python source both failures surface as the None sentinel; the error
constructors record which encoder transform raised.) -/
theorem C1_unseen_label_error (rf : RFFit) (p : FantasyPredictor) (csv : CSVFile)
    (name pos : String) (age : ℚ)
    (hsucc : (train_model rf p (some csv)).2 = none) :
    (normalizeName name ∉ (cleanRows csv.rows).map CleanRow.player →
      predict_player (train_model rf p (some csv)).1 name age pos =
        Except.error PredictError.unknownEntity) ∧
    (normalizeName name ∈ (cleanRows csv.rows).map CleanRow.player →
      pos ∉ (cleanRows csv.rows).map CleanRow.pos →
      predict_player (train_model rf p (some csv)).1 name age pos =
        Except.error PredictError.unknownCategory) ∧
    (∀ q : ℚ,
      predict_player (train_model rf p (some csv)).1 name age pos = Except.ok q →
      normalizeName name ∈ (cleanRows csv.rows).map CleanRow.player ∧
      pos ∈ (cleanRows csv.rows).map CleanRow.pos) := by
  obtain ⟨⟨tc, hf⟩, hne⟩ := train_succ_inv rf p csv hsucc
  rw [train_model_success rf p csv tc hf hne]
  refine ⟨?_, ?_, ?_⟩
  · intro hname
    have hl : lookupLabel (fitClasses ((cleanRows csv.rows).map CleanRow.player))
        (normalizeName name) = none :=
      (lookupLabel_none_iff _ _).mpr (fun hc => hname (mem_fitClasses.mp hc))
    simp [predict_player, hl]
  · intro hname hpos
    have hl1 := lookupLabel_of_mem (mem_fitClasses.mpr hname)
    have hl2 : lookupLabel (fitClasses ((cleanRows csv.rows).map CleanRow.pos))
        pos = none :=
      (lookupLabel_none_iff _ _).mpr (fun hc => hpos (mem_fitClasses.mp hc))
    simp [predict_player, hl1, hl2]
  · intro q hq
    by_cases hname : normalizeName name ∈ (cleanRows csv.rows).map CleanRow.player
    · by_cases hpos : pos ∈ (cleanRows csv.rows).map CleanRow.pos
      · exact ⟨hname, hpos⟩
      · have hl1 := lookupLabel_of_mem (mem_fitClasses.mpr hname)
        have hl2 : lookupLabel (fitClasses ((cleanRows csv.rows).map CleanRow.pos))
            pos = none :=
          (lookupLabel_none_iff _ _).mpr (fun hc => hpos (mem_fitClasses.mp hc))
        simp [predict_player, hl1, hl2] at hq
    · have hl : lookupLabel (fitClasses ((cleanRows csv.rows).map CleanRow.player))
          (normalizeName name) = none :=
        (lookupLabel_none_iff _ _).mpr (fun hc => hname (mem_fitClasses.mp hc))
      simp [predict_player, hl] at hq

/-- Witness for C1: after training on the three-row scenario, predicting
for the unseen name behind nameC fails with the unknown-entity error. -/
theorem C1_witness :
    predict_player (train_model rf0 FantasyPredictor.init (some csv3)).1
      nameC 25 posWR = Except.error PredictError.unknownEntity :=
  (C1_unseen_label_error rf0 FantasyPredictor.init csv3 nameC posWR 25
    (by decide)).1 (by decide)

/-- C2: train_model fails (with an error of the spec's DataError class)
when the file is missing, when the parsed input has no rows, when the
target column is absent under both spellings, and when every row is
dropped during cleaning; in each failure case the trained flag is left
exactly as it was, so no trained model is produced by the call. -/
theorem C2_data_errors (rf : RFFit) (p : FantasyPredictor) :
    (train_model rf p none = (p, some TrainError.fileNotFound)) ∧
    (∀ csv, findTargetCol csv.headers = none →
      train_model rf p (some csv) = (p, some TrainError.missingTargetColumn)) ∧
    (∀ csv : CSVFile, csv.rows = [] → ((train_model rf p (some csv)).2).isSome) ∧
    (∀ csv, cleanRows csv.rows = [] → ((train_model rf p (some csv)).2).isSome) ∧
    (∀ input, ((train_model rf p input).2).isSome →
      (train_model rf p input).1.is_trained = p.is_trained) := by
  have h4 : ∀ csv, cleanRows csv.rows = [] →
      ((train_model rf p (some csv)).2).isSome := by
    intro csv he
    cases hf : findTargetCol csv.headers with
    | none =>
      rw [train_model_noCol rf p csv hf]
      rfl
    | some tc =>
      rw [train_model_empty rf p csv tc hf he]
      rfl
  refine ⟨train_model_none rf p, fun csv h => train_model_noCol rf p csv h,
    fun csv h => h4 csv (by simp [cleanRows, h]), h4, ?_⟩
  intro input hs
  apply train_fail_is_trained
  intro h0
  rw [h0] at hs
  simp at hs

/-- Witness for C2: the four failure cases at concrete inputs, and flag
preservation on one of them. -/
theorem C2_witness :
    train_model rf0 FantasyPredictor.init none =
      (FantasyPredictor.init, some TrainError.fileNotFound) ∧
    train_model rf0 FantasyPredictor.init (some noColCsv) =
      (FantasyPredictor.init, some TrainError.missingTargetColumn) ∧
    ((train_model rf0 FantasyPredictor.init (some emptyCsv)).2).isSome ∧
    ((train_model rf0 FantasyPredictor.init (some badCsv)).2).isSome ∧
    (train_model rf0 FantasyPredictor.init (some badCsv)).1.is_trained =
      FantasyPredictor.init.is_trained :=
  ⟨(C2_data_errors rf0 FantasyPredictor.init).1,
   (C2_data_errors rf0 FantasyPredictor.init).2.1 noColCsv (by decide),
   (C2_data_errors rf0 FantasyPredictor.init).2.2.1 emptyCsv rfl,
   (C2_data_errors rf0 FantasyPredictor.init).2.2.2.1 badCsv (by decide),
   (C2_data_errors rf0 FantasyPredictor.init).2.2.2.2 (some badCsv) (by decide)⟩

/-- C3: predict_player on an instance that has gone through any sequence
of train_model calls none of which could succeed (so before any successful
train) fails with the not-trained error. -/
theorem C3_not_trained_error (rf : RFFit) (inputs : List (Option CSVFile))
    (h : ∀ i ∈ inputs, ¬ goodInput i) (name : String) (age : ℚ) (pos : String) :
    predict_player (trainAll rf inputs) name age pos =
      Except.error PredictError.notTrained := by
  apply predict_untrained
  unfold trainAll
  rw [foldl_train_is_trained rf inputs FantasyPredictor.init h]
  rfl

/-- Witness for C3: a fresh instance taken through a missing-file call and
a missing-target-column call still fails predictions as untrained. -/
theorem C3_witness :
    predict_player (trainAll rf0 [none, some noColCsv]) nameA 25 posWR =
      Except.error PredictError.notTrained := by
  apply C3_not_trained_error
  intro i hi
  simp only [List.mem_cons, List.mem_singleton, List.not_mem_nil, or_false] at hi
  rcases hi with rfl | rfl
  · rintro ⟨csv, hcsv, -, -⟩
    exact Option.noConfusion hcsv
  · rintro ⟨csv, hcsv, hsome, -⟩
    rw [Option.some_inj] at hcsv
    subst hcsv
    exact absurd hsome (by decide)

/-- C4: on any input with the target column present and at least one row
surviving cleaning, train_model succeeds, and a subsequent predict_player
on an entity name and category label both present in the cleaned training
data succeeds with a numeric (rational, hence finite) result — the plain
scalar produced by the fitted regression function. -/
theorem C4_train_predict_success (rf : RFFit) (p : FantasyPredictor)
    (csv : CSVFile) (tc : String) (name pos : String) (age : ℚ)
    (hf : findTargetCol csv.headers = some tc)
    (hne : cleanRows csv.rows ≠ [])
    (hname : normalizeName name ∈ (cleanRows csv.rows).map CleanRow.player)
    (hpos : pos ∈ (cleanRows csv.rows).map CleanRow.pos) :
    (train_model rf p (some csv)).2 = none ∧
    ∃ q : ℚ, predict_player (train_model rf p (some csv)).1 name age pos =
      Except.ok q := by
  rw [train_model_success rf p csv tc hf hne]
  refine ⟨rfl, ?_⟩
  have hl1 := lookupLabel_of_mem (mem_fitClasses.mpr hname)
  have hl2 := lookupLabel_of_mem (mem_fitClasses.mpr hpos)
  refine ⟨rf (featureMatrix (cleanRows csv.rows))
    ((cleanRows csv.rows).map CleanRow.target)
    (sampleWeights ((cleanRows csv.rows).map CleanRow.year))
    [(((fitClasses ((cleanRows csv.rows).map CleanRow.player)).indexOf
        (normalizeName name) : ℕ) : ℚ), age,
     (((fitClasses ((cleanRows csv.rows).map CleanRow.pos)).indexOf pos : ℕ) : ℚ)],
    ?_⟩
  simp [predict_player, hl1, hl2]

/-- Witness for C4: the three-row scenario trains successfully and the
prediction for the first entity at age 27 in its own category returns a
value. -/
theorem C4_witness :
    (train_model rf0 FantasyPredictor.init (some csv3)).2 = none ∧
    ∃ q : ℚ, predict_player (train_model rf0 FantasyPredictor.init (some csv3)).1
      nameA 27 posWR = Except.ok q :=
  C4_train_predict_success rf0 FantasyPredictor.init csv3 colFantPT nameA posWR 27
    (by decide) (by decide) (by decide) (by decide)

/-- C5: on any nonempty cleaned training set, the weight of each row is
its raw decay weight 1 / max(2025 - year, 1/2)^2 divided by the mean of
the raw weights over the surviving rows, and consequently the mean of the
final weights equals 1 exactly (rational arithmetic; hence well within any
floating-point tolerance). -/
theorem C5_weight_normalization (rows : List RawRow) (h : cleanRows rows ≠ []) :
    sampleWeights ((cleanRows rows).map CleanRow.year) =
      ((cleanRows rows).map CleanRow.year).map
        (fun y => rawWeight y /
          qmean ((((cleanRows rows).map CleanRow.year)).map rawWeight)) ∧
    qmean (sampleWeights ((cleanRows rows).map CleanRow.year)) = 1 := by
  have hy : (cleanRows rows).map CleanRow.year ≠ [] := by
    simpa [List.map_eq_nil_iff] using h
  exact ⟨by simp [sampleWeights, List.map_map, Function.comp],
    qmean_sampleWeights _ hy⟩

/-- Witness for C5: the weights of a one-row cleaned set have mean 1. -/
theorem C5_witness :
    qmean (sampleWeights ((cleanRows [rowA2023]).map CleanRow.year)) = 1 :=
  (C5_weight_normalization [rowA2023] (by decide)).2

/-- C6: within one weighted training set, a row with a strictly larger
(more recent) period receives a final weight at least as large as a row
with a smaller period, and every computed weight is strictly positive. -/
theorem C6_weight_monotone (years : List ℚ) (i j : ℕ)
    (hi : i < years.length) (hj : j < years.length)
    (hi' : i < (sampleWeights years).length)
    (hj' : j < (sampleWeights years).length) :
    (years.get ⟨j, hj⟩ < years.get ⟨i, hi⟩ →
      (sampleWeights years).get ⟨j, hj'⟩ ≤ (sampleWeights years).get ⟨i, hi'⟩) ∧
    0 < (sampleWeights years).get ⟨i, hi'⟩ := by
  constructor
  · intro hlt
    rw [sampleWeights_get years i hi' hi, sampleWeights_get years j hj' hj]
    have hne : years ≠ [] :=
      List.ne_nil_of_length_pos (Nat.lt_of_le_of_lt (Nat.zero_le i) hi)
    have hm := qmean_rawWeights_pos years hne
    exact (div_le_div_iff_of_pos_right hm).mpr (rawWeight_mono (le_of_lt hlt))
  · exact sampleWeights_get_pos years i hi' hi

/-- Witness for C6: with periods [2024, 2023], the older row's weight is
at most the newer row's, and the newer row's weight is positive. -/
theorem C6_witness :
    (sampleWeights [(2024 : ℚ), 2023]).get ⟨1, by decide⟩ ≤
      (sampleWeights [(2024 : ℚ), 2023]).get ⟨0, by decide⟩ ∧
    0 < (sampleWeights [(2024 : ℚ), 2023]).get ⟨0, by decide⟩ := by
  have h := C6_weight_monotone [(2024 : ℚ), 2023] 0 1 (by decide) (by decide)
    (by decide) (by decide)
  exact ⟨h.1 (by decide), h.2⟩

/-- C7: entity-name normalization is idempotent; the starred and plain
forms of the example name normalize to the same string; and
predict_player applies exactly the training-time normalization function,
so pre-normalizing the queried name never changes the outcome. -/
theorem C7_normalization_idempotent :
    (∀ s : String, normalizeName (normalizeName s) = normalizeName s) ∧
    normalizeName jjStar = normalizeName jj ∧
    (∀ (p : FantasyPredictor) (name : String) (age : ℚ) (pos : String),
      predict_player p name age pos = predict_player p (normalizeName name) age pos) := by
  refine ⟨normalizeName_idem, by decide, ?_⟩
  intro p name age pos
  unfold predict_player
  rw [normalizeName_idem]

/-- C8 counterexample: the claim says a marker in the interior of a name
does not cause the text after it to be discarded, so a name with an
interior star and no trailing marker or surrounding whitespace would be
left unchanged; the code instead truncates it at the star. -/
theorem C8_counterexample :
    normalizeName jjMid = jjTrunc ∧ jjTrunc ≠ jjMid := by
  exact ⟨rfl, by decide⟩

/-- C8 amended: normalization truncates the name at the first marker
character (star or plus), keeping only the text before it, and then strips
surrounding whitespace; on a marker-free name it is exactly the whitespace
trim, leaving all other characters unchanged. -/
theorem C8_amended_truncate_at_marker (s : String) :
    normalizeName s =
      String.mk (trimChars (s.data.takeWhile (fun c => notStar c && notPlus c))) ∧
    ((∀ c ∈ s.data, c ≠ '*' ∧ c ≠ '+') →
      normalizeName s = String.mk (trimChars s.data)) := by
  constructor
  · show String.mk (trimChars (stripMarkers s.data)) = _
    rw [stripMarkers_eq_takeWhile]
  · intro h
    show String.mk (trimChars (stripMarkers s.data)) = _
    rw [stripMarkers_eq_self]
    intro c hc
    refine ⟨?_, ?_⟩
    · simpa [notStar] using (h c hc).1
    · simpa [notPlus] using (h c hc).2

/-- Witness for C8 amended: a marker-free padded name is only trimmed. -/
theorem C8_amended_witness :
    normalizeName padA = String.mk (trimChars padA.data) :=
  (C8_amended_truncate_at_marker padA).2 (by decide)

/-- C9: a row whose age cell is missing or non-numeric but whose target
and Year cells are present survives cleaning with age imputed to 25, and
its presence makes train_model succeed (given the target column exists):
the row is not dropped and does not cause a training failure. -/
theorem C9_age_imputed (rf : RFFit) (p : FantasyPredictor) (csv : CSVFile)
    (tc : String) (r : RawRow) (t y : ℚ)
    (hmem : r ∈ csv.rows) (hage : r.age = none)
    (ht : r.target = some t) (hy : r.year = some y)
    (hf : findTargetCol csv.headers = some tc) :
    cleanRow r = some (CleanRow.mk (normalizeName r.player) r.fantPos 25 y t) ∧
    (train_model rf p (some csv)).2 = none := by
  have hc : cleanRow r = some (CleanRow.mk (normalizeName r.player) r.fantPos 25 y t) := by
    obtain ⟨pl, fp, ag, yr, tg⟩ := r
    simp only at hage ht hy
    subst hage
    subst ht
    subst hy
    rfl
  refine ⟨hc, ?_⟩
  have hne : cleanRows csv.rows ≠ [] := by
    have hmem' : CleanRow.mk (normalizeName r.player) r.fantPos 25 y t ∈ cleanRows csv.rows :=
      List.mem_filterMap.mpr ⟨r, hmem, hc⟩
    intro h0
    rw [h0] at hmem'
    cases hmem'
  rw [train_model_success rf p csv tc hf hne]

/-- Witness for C9: the one-row file whose row lacks an age trains
successfully with the age imputed to 25. -/
theorem C9_witness :
    cleanRow rowNoAge =
      some (CleanRow.mk (normalizeName nameA) posWR 25 2024 10) ∧
    (train_model rf0 FantasyPredictor.init (some ageCsv)).2 = none :=
  C9_age_imputed rf0 FantasyPredictor.init ageCsv colFantPT rowNoAge 10 2024
    (List.mem_singleton.mpr rfl) rfl rfl rfl (by decide)

/-- C10 counterexample: the claim says every failed train_model call
leaves both encoders unchanged.  Train an instance successfully, then
train it again on a file whose only row is dropped during cleaning: the
second call fails with the zero-usable-rows error, yet the player encoder
has been refit (to the empty class list), so it differs from its value
before the call. -/
theorem C10_counterexample :
    (train_model rf0 (train_model rf0 FantasyPredictor.init (some goodCsv)).1
        (some badCsv)).2 = some TrainError.noUsableRows ∧
    (train_model rf0 (train_model rf0 FantasyPredictor.init (some goodCsv)).1
        (some badCsv)).1.player_encoder ≠
      (train_model rf0 FantasyPredictor.init (some goodCsv)).1.player_encoder := by
  exact ⟨by decide, by decide⟩

/-- C10 amended: a failed train_model call never changes the trained
flag; failures from a missing file or a missing target column happen
before any mutation and leave the instance exactly unchanged (so a file
missing the target column fails before any encoder state is mutated); but
a failure because every row was dropped during cleaning occurs only after
both encoders have been refit on the empty cleaned data and the model
replaced by an unfitted regressor. -/
theorem C10_amended_partial_state (rf : RFFit) (p : FantasyPredictor) :
    (∀ input, ((train_model rf p input).2).isSome →
      (train_model rf p input).1.is_trained = p.is_trained) ∧
    (train_model rf p none = (p, some TrainError.fileNotFound)) ∧
    (∀ csv, findTargetCol csv.headers = none →
      train_model rf p (some csv) = (p, some TrainError.missingTargetColumn)) ∧
    (∀ csv tc, findTargetCol csv.headers = some tc → cleanRows csv.rows = [] →
      train_model rf p (some csv) =
        (FantasyPredictor.mk (some RFModel.unfitted) [] [] p.is_trained,
         some TrainError.noUsableRows)) := by
  refine ⟨?_, train_model_none rf p, fun csv h => train_model_noCol rf p csv h,
    fun csv tc hf he => train_model_empty rf p csv tc hf he⟩
  intro input hs
  apply train_fail_is_trained
  intro h0
  rw [h0] at hs
  simp at hs

/-- Witness for C10 amended: the missing-column failure leaves a fresh
instance unchanged, and the all-rows-dropped failure leaves the unfitted
model and emptied encoders. -/
theorem C10_amended_witness :
    train_model rf0 FantasyPredictor.init (some noColCsv) =
      (FantasyPredictor.init, some TrainError.missingTargetColumn) ∧
    train_model rf0 FantasyPredictor.init (some badCsv) =
      (FantasyPredictor.mk (some RFModel.unfitted) [] []
        FantasyPredictor.init.is_trained,
       some TrainError.noUsableRows) :=
  ⟨(C10_amended_partial_state rf0 FantasyPredictor.init).2.2.1 noColCsv (by decide),
   (C10_amended_partial_state rf0 FantasyPredictor.init).2.2.2 badCsv colFantPT
     (by decide) (by decide)⟩

end FantasyRegressor
